import Mathlib

/-!
CryptoWatch — favourites synchronisation core of `src/App.js`

A shallow embedding of the React component `App` of `src/App.js`.

* The seven `useState` cells become the fields of `AppState`.
* Every handler (`loadData`, `toggleFavorite`, `clearAllFavorites`,
  `addNewUser`) becomes a function that returns the *trace* of what the
  handler does, in source order: calls of state setters and calls of the
  collaborators (`axios`, `AsyncStorage`, `Alert`, `console`).
* A handler is a closure created by one render: the values of the state
  variables it reads (`favorites`, `users`, `newUserName`, `newUserEmail`) are
  the values of that render.  They are passed as the argument `snap`.  The
  store that React holds when the setters are applied is a separate argument
  of `run`.  For a handler invoked on the current render both coincide.
* The results of the awaited promises are inputs of the handlers
  (`Outcome`), so every success or failure of a collaborator is covered.
-/

namespace CryptoWatch

/-! ## Data model -/

/-- One element of `users`: the fields of a record that the component reads. -/
structure User where
  id : Int
  name : String
  email : String
deriving DecidableEq, Repr

/-- The `useState` cells of `App` (App.js lines 22-28). -/
structure AppState where
  users : List User
  favorites : List Int
  isLoading : Bool
  showOnlyFavorites : Bool
  newUserName : String
  newUserEmail : String
  isPostLoading : Bool
deriving DecidableEq, Repr

/-- The initial values handed to `useState` (App.js lines 22-28). -/
def initialState : AppState :=
  { users := [], favorites := [], isLoading := true, showOnlyFavorites := false,
    newUserName := "", newUserEmail := "", isPostLoading := false }

/-- The storage key of the favourites (App.js line 18). -/
def FAVORITES_KEY : String := "@my_favorites_ids"

/-- The storage key reserved for the users (App.js line 19). -/
def USERS_KEY : String := "@my_users_data"

/-- The address of the remote record store (App.js lines 37 and 106). -/
def USERS_URL : String := "https://jsonplaceholder.typicode.com/users"

/-- How an awaited promise settles. -/
inductive Outcome (α : Type) where
  | resolved (value : α)
  | rejected
deriving DecidableEq, Repr

/-- Library functions of the JavaScript runtime that the component calls and
whose definition is not part of the repository.  `jsonParse` returns `none`
where `JSON.parse` throws; the favourites are an array of ids, so only such
values are results. -/
structure JsLib where
  toLowerCase : String → String
  jsonStringify : List Int → String
  jsonParse : String → Option (List Int)

/-- One observable step of a handler: a call of a state setter or of a
collaborator. -/
inductive Step where
  | setUsers (value : List User)
  | setFavorites (value : List Int)
  | setIsLoading (value : Bool)
  | setShowOnlyFavorites (value : Bool)
  | setNewUserName (value : String)
  | setNewUserEmail (value : String)
  | setIsPostLoading (value : Bool)
  | axiosGet (url : String)
  | axiosPost (url name email username : String)
  | getItem (key : String)
  | setItem (key value : String)
  | removeItem (key : String)
  | alert (title message : String)
  | consoleError (message : String)
deriving DecidableEq, Repr

/-- The step is a call of the remote record store. -/
def Step.isRemote : Step → Bool
  | .axiosGet _ => true
  | .axiosPost _ _ _ _ => true
  | _ => false

/-- The step is a call of the persistence layer. -/
def Step.isStorage : Step → Bool
  | .getItem _ => true
  | .setItem _ _ => true
  | .removeItem _ => true
  | _ => false

/-- React applies a setter called with a value by replacing the cell; the
other steps do not touch the store. -/
def applyStep (s : AppState) : Step → AppState
  | .setUsers v => { s with users := v }
  | .setFavorites v => { s with favorites := v }
  | .setIsLoading v => { s with isLoading := v }
  | .setShowOnlyFavorites v => { s with showOnlyFavorites := v }
  | .setNewUserName v => { s with newUserName := v }
  | .setNewUserEmail v => { s with newUserEmail := v }
  | .setIsPostLoading v => { s with isPostLoading := v }
  | _ => s

/-- The store after the setters of a trace have been applied in order. -/
def run (s : AppState) (trace : List Step) : AppState :=
  trace.foldl applyStep s

/-! ## Strings -/

/-- The characters removed by `String.prototype.trim`: the ECMAScript
`WhiteSpace` and `LineTerminator` code points. -/
def isJsWhitespace (c : Char) : Bool :=
  let n := c.toNat
  n == 0x09 || n == 0x0A || n == 0x0B || n == 0x0C || n == 0x0D || n == 0x20 ||
  n == 0xA0 || n == 0x1680 || (0x2000 ≤ n && n ≤ 0x200A) || n == 0x2028 ||
  n == 0x2029 || n == 0x202F || n == 0x205F || n == 0x3000 || n == 0xFEFF

/-- The characters of a string without its leading and trailing white space. -/
def trimChars (cs : List Char) : List Char :=
  ((cs.dropWhile isJsWhitespace).reverse.dropWhile isJsWhitespace).reverse

/-- The method `String.prototype.trim`. -/
def jsTrim (s : String) : String := String.mk (trimChars s.data)

/-- The list `pat` starts the list `cs`. -/
def startsWithChars : List Char → List Char → Bool
  | [], _ => true
  | _ :: _, [] => false
  | p :: ps, c :: cs => p == c && startsWithChars ps cs

/-- Replace the first occurrence of `pat` in `cs` by `rep`. -/
def replaceFirstChars (pat rep : List Char) : List Char → List Char
  | [] => if pat.isEmpty then rep else []
  | c :: cs =>
    if startsWithChars pat (c :: cs) then rep ++ (c :: cs).drop pat.length
    else c :: replaceFirstChars pat rep cs

/-- The method `String.prototype.replace` called with a string pattern: only
the first occurrence of the pattern is replaced.  The replacement is taken
literally (the patterns introduced by a dollar sign are not modelled; the
replacement of App.js line 110 has none). -/
def jsReplace (s pat rep : String) : String :=
  String.mk (replaceFirstChars pat.data rep.data s.data)

/-- The handle sent as `username` (App.js line 110). -/
def username (lib : JsLib) (newUserName : String) : String :=
  jsReplace (lib.toLowerCase newUserName) " " "_"

/-! ## Handlers -/

/-- The handler `loadData` (App.js lines 34-50).  `fetched` is how
`axios.get` settles (with `response.data`), `stored` how
`AsyncStorage.getItem` settles if it is called (`none` is `null`). -/
def loadData (lib : JsLib) (fetched : Outcome (List User))
    (stored : Outcome (Option String)) : List Step :=
  let failure := [Step.alert "Erreur" "Impossible de charger les données",
                  Step.consoleError "error"]
  let body :=
    match fetched with
    | .rejected => Step.axiosGet USERS_URL :: failure
    | .resolved data =>
      [Step.axiosGet USERS_URL, Step.setUsers data, Step.getItem FAVORITES_KEY] ++
      (match stored with
       | .rejected => failure
       | .resolved none => []
       | .resolved (some storedFavs) =>
         if storedFavs = "" then []
         else
           match lib.jsonParse storedFavs with
           | some parsed => [Step.setFavorites parsed]
           | none => failure)
  [Step.setIsLoading true] ++ body ++ [Step.setIsLoading false]

/-- The array `newFavorites` computed by `toggleFavorite` (App.js lines 54-59). -/
def newFavorites (favorites : List Int) (userId : Int) : List Int :=
  if favorites.contains userId then favorites.filter (fun id => id != userId)
  else favorites ++ [userId]

/-- The handler `toggleFavorite` (App.js lines 52-65) of the render `snap`.
`written` is how `AsyncStorage.setItem` settles. -/
def toggleFavorite (lib : JsLib) (snap : AppState) (userId : Int)
    (written : Outcome Unit) : List Step :=
  [Step.setFavorites (newFavorites snap.favorites userId),
   Step.setItem FAVORITES_KEY (lib.jsonStringify (newFavorites snap.favorites userId))] ++
  (match written with
   | .resolved _ => []
   | .rejected => [Step.consoleError "Erreur de sauvegarde"])

/-- The button of the confirmation dialog that the user presses. -/
inductive Choice where
  | annuler
  | effacer
deriving DecidableEq, Repr

/-- The handler `clearAllFavorites` (App.js lines 67-93) together with the
`onPress` callback of the pressed button.  `removed` is how
`AsyncStorage.removeItem` settles. -/
def clearAllFavorites (choice : Choice) (removed : Outcome Unit) : List Step :=
  Step.alert "Confirmation" "Êtes-vous sûr de vouloir effacer tous les favoris ?" ::
  (match choice with
   | .annuler => []
   | .effacer =>
     match removed with
     | .resolved _ =>
       [Step.removeItem FAVORITES_KEY, Step.setFavorites [],
        Step.alert "Succès" "Tous les favoris ont été supprimés"]
     | .rejected =>
       [Step.removeItem FAVORITES_KEY, Step.consoleError "Erreur lors de l\x27effacement",
        Step.alert "Erreur" "Impossible d\x27effacer les favoris"])

/-- The handler `addNewUser` (App.js lines 95-131) of the render `snap`.
`posted` is how `axios.post` settles (with `response.data`). -/
def addNewUser (lib : JsLib) (snap : AppState) (posted : Outcome User) : List Step :=
  if jsTrim snap.newUserName = "" || jsTrim snap.newUserEmail = "" then
    [Step.alert "Erreur" "Veuillez remplir tous les champs"]
  else
    [Step.setIsPostLoading true,
     Step.axiosPost USERS_URL snap.newUserName snap.newUserEmail
       (username lib snap.newUserName)] ++
    (match posted with
     | .resolved newUser =>
       [Step.setUsers (snap.users ++ [newUser]),
        Step.setNewUserName "",
        Step.setNewUserEmail "",
        Step.alert "Succès"
          ("Utilisateur \"" ++ snap.newUserName ++ "\" ajouté avec l\x27ID " ++ toString newUser.id)]
     | .rejected =>
       [Step.consoleError "Erreur lors de l\x27ajout",
        Step.alert "Erreur" "Impossible d\x27ajouter l\x27utilisateur"]) ++
    [Step.setIsPostLoading false]

/-- The derived list `displayedUsers` (App.js lines 155-157). -/
def displayedUsers (s : AppState) : List User :=
  if s.showOnlyFavorites then s.users.filter (fun user => s.favorites.contains user.id)
  else s.users

/-- The subsequence of `records` whose id is a member of `favs`, in the order
of `records`: the derived view as the specification words it. -/
def favoriteSubsequence (favs : List Int) : List User → List User
  | [] => []
  | r :: rest =>
    if r.id ∈ favs then r :: favoriteSubsequence favs rest
    else favoriteSubsequence favs rest

/-- The trace of a submission made while the load of the mount is in flight
(the form of App.js lines 191-226 is rendered whatever `isLoading` is).
`loadData` runs to its first `await` (`setIsLoading(true)`, `axios.get`); the
handler `addNewUser` of the render `snap` runs to its `await`
(`setIsPostLoading(true)`, `axios.post`); the get settles and `loadData` runs
to its end; then the post settles and `addNewUser` runs to its end. -/
def submitDuringLoad (lib : JsLib) (snap : AppState) (fetched : Outcome (List User))
    (stored : Outcome (Option String)) (posted : Outcome User) : List Step :=
  (loadData lib fetched stored).take 2 ++ (addNewUser lib snap posted).take 2 ++
  (loadData lib fetched stored).drop 2 ++ (addNewUser lib snap posted).drop 2

/-! ## A sample runtime library, for concrete evaluations -/

/-- Lower-casing of the ASCII letters; `toLowerCase` on ASCII strings. -/
def asciiToLowerCase (s : String) : String := String.mk (s.data.map Char.toLower)

/-- The text of an array of small integers as `JSON.stringify` prints it. -/
def stringifyIds (ids : List Int) : String :=
  "[" ++ ",".intercalate (ids.map toString) ++ "]"

/-- The pieces of a text between its commas. -/
def splitCommas : List Char → List (List Char)
  | [] => [[]]
  | c :: cs =>
    if c = ',' then [] :: splitCommas cs
    else
      match splitCommas cs with
      | [] => [[c]]
      | w :: ws => (c :: w) :: ws

/-- The number written by decimal digits, read from the left with the value
`acc` of the digits already read. -/
def readDigits (acc : Nat) : List Char → Option Nat
  | [] => some acc
  | c :: cs => if c.isDigit then readDigits (10 * acc + (c.toNat - 48)) cs else none

/-- The integer written by an optional minus sign and decimal digits. -/
def readInt : List Char → Option Int
  | [] => none
  | '-' :: d :: ds => (readDigits 0 (d :: ds)).map (fun n => - (n : Int))
  | ds => (readDigits 0 ds).map (fun n => (n : Int))

/-- The integers written by the pieces, if each piece is one. -/
def readInts : List (List Char) → Option (List Int)
  | [] => some []
  | w :: ws =>
    match readInt w, readInts ws with
    | some n, some ns => some (n :: ns)
    | _, _ => none

/-- A reader of the texts `[]`, `[1]`, `[1,2]`, ... -/
def parseIds (s : String) : Option (List Int) :=
  match s.data with
  | '[' :: rest =>
    match rest.reverse with
    | ']' :: inner =>
      if inner.isEmpty then some [] else readInts (splitCommas inner.reverse)
    | _ => none
  | _ => none

/-- The sample library. -/
def sampleLib : JsLib :=
  { toLowerCase := asciiToLowerCase, jsonStringify := stringifyIds, jsonParse := parseIds }

/-! ## Auxiliary facts -/

theorem favoriteSubsequence_eq_filter (favs : List Int) (records : List User) :
    favoriteSubsequence favs records = records.filter (fun user => favs.contains user.id) := by
  induction records with
  | nil => rfl
  | cons r rest ih =>
    by_cases h : r.id ∈ favs
    · simp [favoriteSubsequence, List.filter_cons, h, ih]
    · simp [favoriteSubsequence, List.filter_cons, h, ih]

theorem mem_newFavorites_self (favorites : List Int) (userId : Int) :
    userId ∈ newFavorites favorites userId ↔ userId ∉ favorites := by
  unfold newFavorites
  by_cases h : userId ∈ favorites
  · simp [h]
  · simp [h]

theorem mem_newFavorites_of_ne (favorites : List Int) (userId x : Int) (hx : x ≠ userId) :
    x ∈ newFavorites favorites userId ↔ x ∈ favorites := by
  unfold newFavorites
  by_cases h : userId ∈ favorites
  · simp [h, hx]
  · simp [h, hx]

theorem run_append (s : AppState) (t₁ t₂ : List Step) :
    run s (t₁ ++ t₂) = run (run s t₁) t₂ := by
  simp [run, List.foldl_append]

theorem run_toggleFavorite (lib : JsLib) (snap cur : AppState) (userId : Int)
    (written : Outcome Unit) :
    run cur (toggleFavorite lib snap userId written) =
      { cur with favorites := newFavorites snap.favorites userId } := by
  cases written <;> simp [toggleFavorite, run, applyStep]

theorem trimChars_eq_nil (cs : List Char) :
    trimChars cs = [] ↔ ∀ c ∈ cs, isJsWhitespace c = true := by
  unfold trimChars
  rw [List.reverse_eq_nil_iff, List.dropWhile_eq_nil_iff]
  constructor
  · intro h
    have hnil : cs.dropWhile isJsWhitespace = [] := by
      cases hd : cs.dropWhile isJsWhitespace with
      | nil => rfl
      | cons x xs =>
        have hx : isJsWhitespace x = true := h x (by simp [hd])
        have hne : cs.dropWhile isJsWhitespace ≠ [] := by simp [hd]
        have hhead := List.head_dropWhile_not isJsWhitespace cs hne
        simp [hd, hx] at hhead
    exact List.dropWhile_eq_nil_iff.mp hnil
  · intro h c hc
    have hsub : c ∈ cs := (List.dropWhile_sublist isJsWhitespace).subset (by simpa using hc)
    exact h c hsub

theorem jsTrim_eq_empty (s : String) :
    jsTrim s = "" ↔ ∀ c ∈ s.data, isJsWhitespace c = true := by
  rw [← trimChars_eq_nil]
  unfold jsTrim
  constructor
  · intro h
    have := congrArg String.data h
    simpa using this
  · intro h
    rw [h]

theorem run_clearAllFavorites (s : AppState) (choice : Choice) (removed : Outcome Unit) :
    run s (clearAllFavorites choice removed) =
      if choice = .effacer ∧ removed = .resolved () then { s with favorites := [] } else s := by
  cases choice <;> cases removed <;> simp [clearAllFavorites, run, applyStep]

theorem addNewUser_invalid (lib : JsLib) (snap : AppState) (posted : Outcome User)
    (h : jsTrim snap.newUserName = "" ∨ jsTrim snap.newUserEmail = "") :
    addNewUser lib snap posted = [Step.alert "Erreur" "Veuillez remplir tous les champs"] := by
  unfold addNewUser
  rw [if_pos]
  simpa using h

theorem addNewUser_valid (lib : JsLib) (snap : AppState) (posted : Outcome User)
    (hn : jsTrim snap.newUserName ≠ "") (he : jsTrim snap.newUserEmail ≠ "") :
    addNewUser lib snap posted =
      [Step.setIsPostLoading true,
       Step.axiosPost USERS_URL snap.newUserName snap.newUserEmail
         (username lib snap.newUserName)] ++
      (match posted with
       | .resolved newUser =>
         [Step.setUsers (snap.users ++ [newUser]),
          Step.setNewUserName "",
          Step.setNewUserEmail "",
          Step.alert "Succès"
            ("Utilisateur \"" ++ snap.newUserName ++ "\" ajouté avec l\x27ID " ++
              toString newUser.id)]
       | .rejected =>
         [Step.consoleError "Erreur lors de l\x27ajout",
          Step.alert "Erreur" "Impossible d\x27ajouter l\x27utilisateur"]) ++
      [Step.setIsPostLoading false] := by
  unfold addNewUser
  rw [if_neg]
  simp [hn, he]

theorem run_loadData_rejected (lib : JsLib) (s : AppState)
    (stored : Outcome (Option String)) :
    run s (loadData lib .rejected stored) = { s with isLoading := false } := by
  simp [loadData, run, applyStep]

theorem run_loadData_resolved (lib : JsLib) (s : AppState) (data : List User)
    (stored : Outcome (Option String)) :
    run s (loadData lib (.resolved data) stored) =
      { s with
        users := data,
        favorites :=
          (match stored with
           | .resolved (some storedFavs) =>
             if storedFavs = "" then s.favorites
             else (lib.jsonParse storedFavs).getD s.favorites
           | _ => s.favorites),
        isLoading := false } := by
  rcases stored with (_ | blob) | _
  · simp [loadData, run, applyStep]
  · by_cases hb : blob = ""
    · simp [loadData, run, applyStep, hb]
    · cases hp : lib.jsonParse blob <;> simp [loadData, run, applyStep, hb, hp]
  · simp [loadData, run, applyStep]

/-! ## The claims -/

/-- C1: the derived view `displayedUsers` equals `users` when
`showOnlyFavorites` is false; when it is true it equals the subsequence of
`users` whose id is a member of `favorites`, in the order of `users`: it is the
specification's `favoriteSubsequence`, it is a sublist of `users`, it holds
exactly the records of `users` whose id is a favourite, and every sublist of
`users` made of favourites only is a sublist of it. -/
theorem displayedUsers_correct (s : AppState) :
    displayedUsers { s with showOnlyFavorites := false } = s.users ∧
    displayedUsers { s with showOnlyFavorites := true }
      = favoriteSubsequence s.favorites s.users ∧
    (displayedUsers { s with showOnlyFavorites := true }).Sublist s.users ∧
    (∀ r, r ∈ displayedUsers { s with showOnlyFavorites := true } ↔
      r ∈ s.users ∧ r.id ∈ s.favorites) ∧
    (∀ l : List User, l.Sublist s.users → (∀ r ∈ l, r.id ∈ s.favorites) →
      l.Sublist (displayedUsers { s with showOnlyFavorites := true })) := by
  refine ⟨by simp [displayedUsers], ?_, ?_, ?_, ?_⟩
  · simp [displayedUsers, favoriteSubsequence_eq_filter]
  · simp [displayedUsers]
  · intro r
    simp [displayedUsers, List.mem_filter]
  · intro l hl hfav
    have h := hl.filter (fun user => s.favorites.contains user.id)
    have hl' : l.filter (fun user => s.favorites.contains user.id) = l := by
      rw [List.filter_eq_self]
      intro r hr
      simpa using hfav r hr
    rw [hl'] at h
    simpa [displayedUsers] using h

/-- Witness of C1 on two records of which the second is a favourite. -/
theorem displayedUsers_correct_witness :
    displayedUsers { initialState with
        users := [⟨1, "Ann", "a@x.com"⟩, ⟨2, "Bob", "b@x.com"⟩],
        favorites := [2, 7], showOnlyFavorites := true }
      = [⟨2, "Bob", "b@x.com"⟩] ∧
    ([⟨2, "Bob", "b@x.com"⟩] : List User).Sublist
      (displayedUsers { initialState with
        users := [⟨1, "Ann", "a@x.com"⟩, ⟨2, "Bob", "b@x.com"⟩],
        favorites := [2, 7], showOnlyFavorites := true }) :=
  ⟨by decide,
   (displayedUsers_correct { initialState with
        users := [⟨1, "Ann", "a@x.com"⟩, ⟨2, "Bob", "b@x.com"⟩],
        favorites := [2, 7] }).2.2.2.2 [⟨2, "Bob", "b@x.com"⟩]
      (by decide) (by decide)⟩

/-- C2: two calls of `toggleFavorite` with the same id, the second made by the
render of the state that the first produced, give back a list of favourites
with the members of the first list, whatever the two writes do, and touch no
other cell; from the empty list `toggleFavorite(1)` gives `[1]` and a second
`toggleFavorite(1)` gives the empty list. -/
theorem toggleFavorite_twice (lib : JsLib) (s : AppState) (userId : Int)
    (w₁ w₂ : Outcome Unit) :
    (∀ x, x ∈ (run (run s (toggleFavorite lib s userId w₁))
          (toggleFavorite lib (run s (toggleFavorite lib s userId w₁)) userId w₂)).favorites
        ↔ x ∈ s.favorites) ∧
    { run (run s (toggleFavorite lib s userId w₁))
          (toggleFavorite lib (run s (toggleFavorite lib s userId w₁)) userId w₂)
        with favorites := s.favorites } = s ∧
    (run { s with favorites := [] }
        (toggleFavorite lib { s with favorites := [] } 1 w₁)).favorites = [1] ∧
    (run { s with favorites := [1] }
        (toggleFavorite lib { s with favorites := [1] } 1 w₂)).favorites = [] := by
  refine ⟨?_, ?_, ?_, ?_⟩
  · intro x
    simp only [run_toggleFavorite]
    by_cases hx : x = userId
    · subst hx
      rw [mem_newFavorites_self, mem_newFavorites_self]
      exact not_not
    · rw [mem_newFavorites_of_ne _ _ _ hx, mem_newFavorites_of_ne _ _ _ hx]
  · simp only [run_toggleFavorite]
  · simp only [run_toggleFavorite]
    decide
  · simp only [run_toggleFavorite]
    decide

/-- C3: whatever the write does, after `toggleFavorite(id)` the membership of
`id` in `favorites` is flipped and the membership of every other id is
unchanged, no other cell changes, and the value handed to
`AsyncStorage.setItem` is the text of the whole new list. -/
theorem toggleFavorite_flips (lib : JsLib) (s : AppState) (userId : Int)
    (written : Outcome Unit) :
    (userId ∈ (run s (toggleFavorite lib s userId written)).favorites
      ↔ userId ∉ s.favorites) ∧
    (∀ x, x ≠ userId →
      (x ∈ (run s (toggleFavorite lib s userId written)).favorites ↔ x ∈ s.favorites)) ∧
    { run s (toggleFavorite lib s userId written) with favorites := s.favorites } = s ∧
    (toggleFavorite lib s userId written).filter Step.isStorage =
      [Step.setItem FAVORITES_KEY
        (lib.jsonStringify (run s (toggleFavorite lib s userId written)).favorites)] ∧
    (run s (toggleFavorite lib s userId .rejected)).favorites =
      (run s (toggleFavorite lib s userId (.resolved ()))).favorites := by
  refine ⟨?_, ?_, ?_, ?_, ?_⟩
  · rw [run_toggleFavorite]
    exact mem_newFavorites_self _ _
  · intro x hx
    rw [run_toggleFavorite]
    exact mem_newFavorites_of_ne _ _ _ hx
  · rw [run_toggleFavorite]
  · rw [run_toggleFavorite]
    cases written <;> simp [toggleFavorite, Step.isStorage]
  · simp only [run_toggleFavorite]

/-- Witness of C3: with favourites `[3, 5]`, toggling 5 while the write fails
keeps 3 a favourite. -/
theorem toggleFavorite_flips_witness :
    (3 : Int) ∈ (run { initialState with favorites := [3, 5] }
      (toggleFavorite sampleLib { initialState with favorites := [3, 5] } 5
        .rejected)).favorites :=
  ((toggleFavorite_flips sampleLib { initialState with favorites := [3, 5] } 5
      .rejected).2.1 3 (by decide)).2 (by decide)

/-- C4, counterexample: from the initial state (no favourites) the handlers
`toggleFavorite(1)` and `toggleFavorite(2)` of the same render are invoked one
after the other, both writes succeed.  The second handler computes its list
from the `favorites` of its render, the final list is `[2]`, and the membership
of 1 has not been flipped. -/
theorem rapid_toggles_counterexample :
    (run initialState
      (toggleFavorite sampleLib initialState 1 (.resolved ()) ++
       toggleFavorite sampleLib initialState 2 (.resolved ()))).favorites = [2] ∧
    ¬ ((1 : Int) ∈ (run initialState
        (toggleFavorite sampleLib initialState 1 (.resolved ()) ++
         toggleFavorite sampleLib initialState 2 (.resolved ()))).favorites
      ↔ (1 : Int) ∉ initialState.favorites) := by
  constructor
  · simp only [run_append, run_toggleFavorite]
    decide
  · simp only [run_append, run_toggleFavorite]
    decide

/-- C4, amended: for distinct ids `a` and `b`, when `toggleFavorite(a)` and
`toggleFavorite(b)` are invoked from handlers of the same render, each computes
its list from the `favorites` of that render and the later `setFavorites`
wins: the final list is the one computed by the second toggle, where the
membership of `b` is flipped and the membership of every other id, `a`
included, is as before.  When the second handler belongs to the render that
follows the update of the first, the membership of both is flipped and that of
every other id is unchanged. -/
theorem rapid_toggles_last_wins (lib : JsLib) (s : AppState) (a b : Int)
    (w₁ w₂ : Outcome Unit) (hab : a ≠ b) :
    (run s (toggleFavorite lib s a w₁ ++ toggleFavorite lib s b w₂)).favorites
      = newFavorites s.favorites b ∧
    (b ∈ (run s (toggleFavorite lib s a w₁ ++ toggleFavorite lib s b w₂)).favorites
      ↔ b ∉ s.favorites) ∧
    (a ∈ (run s (toggleFavorite lib s a w₁ ++ toggleFavorite lib s b w₂)).favorites
      ↔ a ∈ s.favorites) ∧
    (∀ x, x ≠ b →
      (x ∈ (run s (toggleFavorite lib s a w₁ ++ toggleFavorite lib s b w₂)).favorites
        ↔ x ∈ s.favorites)) ∧
    (a ∈ (run (run s (toggleFavorite lib s a w₁))
          (toggleFavorite lib (run s (toggleFavorite lib s a w₁)) b w₂)).favorites
      ↔ a ∉ s.favorites) ∧
    (b ∈ (run (run s (toggleFavorite lib s a w₁))
          (toggleFavorite lib (run s (toggleFavorite lib s a w₁)) b w₂)).favorites
      ↔ b ∉ s.favorites) ∧
    (∀ x, x ≠ a → x ≠ b →
      (x ∈ (run (run s (toggleFavorite lib s a w₁))
          (toggleFavorite lib (run s (toggleFavorite lib s a w₁)) b w₂)).favorites
        ↔ x ∈ s.favorites)) := by
  simp only [run_append, run_toggleFavorite]
  refine ⟨trivial, mem_newFavorites_self _ _, mem_newFavorites_of_ne _ _ _ hab, ?_, ?_, ?_, ?_⟩
  · intro x hx
    exact mem_newFavorites_of_ne _ _ _ hx
  · rw [mem_newFavorites_of_ne _ _ _ hab]
    exact mem_newFavorites_self _ _
  · rw [mem_newFavorites_self]
    exact not_congr (mem_newFavorites_of_ne _ _ _ (Ne.symm hab))
  · intro x hxa hxb
    rw [mem_newFavorites_of_ne _ _ _ hxb]
    exact mem_newFavorites_of_ne _ _ _ hxa

/-- Witness of the amended C4 at `a = 1`, `b = 2` and no favourites. -/
theorem rapid_toggles_last_wins_witness :
    (1 : Int) ≠ 2 ∧
    (run initialState
      (toggleFavorite sampleLib initialState 1 (.resolved ()) ++
       toggleFavorite sampleLib initialState 2 .rejected)).favorites
      = newFavorites initialState.favorites 2 :=
  ⟨by decide,
   (rapid_toggles_last_wins sampleLib initialState 1 2 (.resolved ()) .rejected
      (by decide)).1⟩

/-- C5: after `clearAllFavorites()` the list of favourites is empty if the user
pressed `Effacer` and the delete succeeded, and otherwise it is the list of
before: if the delete fails the state is unchanged, and when the user presses
`Annuler` the state is unchanged and the trace has no call of the persistence
layer.  No other cell changes in any case. -/
theorem clearAllFavorites_outcomes (s : AppState) (choice : Choice)
    (removed : Outcome Unit) :
    (run s (clearAllFavorites .effacer (.resolved ()))).favorites = [] ∧
    (¬ (choice = .effacer ∧ removed = .resolved ()) →
      (run s (clearAllFavorites choice removed)).favorites = s.favorites) ∧
    run s (clearAllFavorites .effacer .rejected) = s ∧
    run s (clearAllFavorites .annuler removed) = s ∧
    (clearAllFavorites .annuler removed).filter Step.isStorage = [] ∧
    { run s (clearAllFavorites choice removed) with favorites := s.favorites } = s := by
  refine ⟨?_, ?_, ?_, ?_, ?_, ?_⟩
  · simp [run_clearAllFavorites]
  · intro h
    rw [run_clearAllFavorites, if_neg h]
  · simp [run_clearAllFavorites]
  · simp [run_clearAllFavorites]
  · simp [clearAllFavorites, Step.isStorage]
  · rw [run_clearAllFavorites]
    split <;> rfl

/-- Witness of C5: with favourites `[4]`, a confirmed clear whose delete fails
keeps `[4]`. -/
theorem clearAllFavorites_outcomes_witness :
    (run { initialState with favorites := [4] }
      (clearAllFavorites .effacer .rejected)).favorites = [4] :=
  (clearAllFavorites_outcomes { initialState with favorites := [4] } .effacer
    .rejected).2.1 (by decide)

/-- C6: if the name or the email of the form is empty after `trim`, `addNewUser`
does nothing but show the validation alert: its trace has no call of the remote
store and applying it leaves every cell (the records, the form input and the
submitting flag among them) unchanged.  When both are non-empty after `trim`
the create call is made, whatever its outcome. -/
theorem addNewUser_validation (lib : JsLib) (snap cur : AppState)
    (posted : Outcome User) :
    ((jsTrim snap.newUserName = "" ∨ jsTrim snap.newUserEmail = "") →
      addNewUser lib snap posted
        = [Step.alert "Erreur" "Veuillez remplir tous les champs"] ∧
      (addNewUser lib snap posted).filter Step.isRemote = [] ∧
      run cur (addNewUser lib snap posted) = cur) ∧
    ((jsTrim snap.newUserName ≠ "" ∧ jsTrim snap.newUserEmail ≠ "") →
      (addNewUser lib snap posted).filter Step.isRemote
        = [Step.axiosPost USERS_URL snap.newUserName snap.newUserEmail
            (username lib snap.newUserName)]) := by
  constructor
  · intro h
    rw [addNewUser_invalid lib snap posted h]
    simp [Step.isRemote, run, applyStep]
  · rintro ⟨hn, he⟩
    rw [addNewUser_valid lib snap posted hn he]
    cases posted <;> simp [Step.isRemote]

/-- Witness of C6: the name is empty, the email is `a@x.com`; and the name is
`Bob`, the email `b@x.com`. -/
theorem addNewUser_validation_witness :
    run { initialState with newUserName := "", newUserEmail := "a@x.com" }
      (addNewUser sampleLib
        { initialState with newUserName := "", newUserEmail := "a@x.com" }
        (.resolved ⟨11, "", "a@x.com"⟩))
      = { initialState with newUserName := "", newUserEmail := "a@x.com" } ∧
    (addNewUser sampleLib
        { initialState with newUserName := "Bob", newUserEmail := "b@x.com" }
        .rejected).filter Step.isRemote
      = [Step.axiosPost USERS_URL "Bob" "b@x.com"
          (username sampleLib "Bob")] :=
  ⟨((addNewUser_validation sampleLib
        { initialState with newUserName := "", newUserEmail := "a@x.com" }
        { initialState with newUserName := "", newUserEmail := "a@x.com" }
        (.resolved ⟨11, "", "a@x.com"⟩)).1 (Or.inl (by decide))).2.2,
   (addNewUser_validation sampleLib
        { initialState with newUserName := "Bob", newUserEmail := "b@x.com" }
        initialState .rejected).2 ⟨by decide, by decide⟩⟩

/-- Sequential case of `addNewUser`: when the handler belongs to the render of
the current store `s`, the name and the email are non-empty after `trim` and
the create call resolves with the record `r`, then after `addNewUser` settles
`users` is the list of `s` with `r` appended as its last element, the two form
fields are empty, the submitting flag is false, and no other cell has
changed. -/
theorem addNewUser_sequential (lib : JsLib) (s : AppState) (r : User)
    (hn : jsTrim s.newUserName ≠ "") (he : jsTrim s.newUserEmail ≠ "") :
    (run s (addNewUser lib s (.resolved r))).users = s.users ++ [r] ∧
    (run s (addNewUser lib s (.resolved r))).newUserName = "" ∧
    (run s (addNewUser lib s (.resolved r))).newUserEmail = "" ∧
    (run s (addNewUser lib s (.resolved r))).isPostLoading = false ∧
    run s (addNewUser lib s (.resolved r)) =
      { s with users := s.users ++ [r], newUserName := "", newUserEmail := "",
               isPostLoading := false } := by
  rw [addNewUser_valid lib s (.resolved r) hn he]
  simp [run, applyStep]

/-- C7, the code at the failing input: the component has just mounted, the
load is in flight (`users` is empty), the form holds `Bob` and `b@x.com` and
`Ajouter` is pressed.  The get resolves with the record of Ann, so `users` is
`[Ann]` when the post resolves with the record of id 11.  `addNewUser` then
calls `setUsers([...users, newUser])` with the `users` of its render: `users`
ends as the new record alone.  The fetched record is dropped, so the list is
not the previous list with the new record appended; the form is reset and the
submitting flag is false. -/
theorem addNewUser_drops_fetched_users :
    (loadData sampleLib (.resolved [⟨1, "Ann", "a@x.com"⟩]) (.resolved none)).take 2
      = [Step.setIsLoading true, Step.axiosGet USERS_URL] ∧
    (addNewUser sampleLib
        { initialState with newUserName := "Bob", newUserEmail := "b@x.com" }
        (.resolved ⟨11, "Bob", "b@x.com"⟩)).take 2
      = [Step.setIsPostLoading true,
         Step.axiosPost USERS_URL "Bob" "b@x.com" "bob"] ∧
    (run { initialState with newUserName := "Bob", newUserEmail := "b@x.com" }
      ((loadData sampleLib (.resolved [⟨1, "Ann", "a@x.com"⟩]) (.resolved none)).take 2 ++
       (addNewUser sampleLib
          { initialState with newUserName := "Bob", newUserEmail := "b@x.com" }
          (.resolved ⟨11, "Bob", "b@x.com"⟩)).take 2 ++
       (loadData sampleLib (.resolved [⟨1, "Ann", "a@x.com"⟩])
          (.resolved none)).drop 2)).users
      = [⟨1, "Ann", "a@x.com"⟩] ∧
    run { initialState with newUserName := "Bob", newUserEmail := "b@x.com" }
      (submitDuringLoad sampleLib
        { initialState with newUserName := "Bob", newUserEmail := "b@x.com" }
        (.resolved [⟨1, "Ann", "a@x.com"⟩]) (.resolved none)
        (.resolved ⟨11, "Bob", "b@x.com"⟩))
      = { initialState with users := [⟨11, "Bob", "b@x.com"⟩], isLoading := false } ∧
    (run { initialState with newUserName := "Bob", newUserEmail := "b@x.com" }
      (submitDuringLoad sampleLib
        { initialState with newUserName := "Bob", newUserEmail := "b@x.com" }
        (.resolved [⟨1, "Ann", "a@x.com"⟩]) (.resolved none)
        (.resolved ⟨11, "Bob", "b@x.com"⟩))).users
      ≠ [⟨1, "Ann", "a@x.com"⟩] ++ [⟨11, "Bob", "b@x.com"⟩] := by
  have hadd := addNewUser_valid sampleLib
    { initialState with newUserName := "Bob", newUserEmail := "b@x.com" }
    (.resolved ⟨11, "Bob", "b@x.com"⟩) (by decide) (by decide)
  refine ⟨by decide, ?_, ?_, ?_, ?_⟩
  · rw [hadd]
    decide
  · rw [hadd]
    decide
  · unfold submitDuringLoad
    rw [hadd]
    decide
  · unfold submitDuringLoad
    rw [hadd]
    decide

/-- C8: whatever the record fetch and the favourites read do (and whatever
`JSON.parse` does with the blob), `isLoading` is false once `loadData` has
settled; and when the record fetch fails, `users` is the list of before. -/
theorem loadData_settles (lib : JsLib) (s : AppState) (fetched : Outcome (List User))
    (stored : Outcome (Option String)) :
    (run s (loadData lib fetched stored)).isLoading = false ∧
    (run s (loadData lib .rejected stored)).users = s.users := by
  constructor
  · cases fetched with
    | resolved data => rw [run_loadData_resolved]
    | rejected => rw [run_loadData_rejected]
  · rw [run_loadData_rejected]

/-- C9, counterexample: on the first run the record fetch fails while the
store holds the blob `[1]`, which a read would return and which parses to
`[1]`.  `loadData` does not call the persistence layer at all and `favorites`
stays empty: it is not the list parsed from the blob. -/
theorem loadData_favorites_counterexample :
    sampleLib.jsonParse "[1]" = some [1] ∧
    (loadData sampleLib .rejected (.resolved (some "[1]"))).filter Step.isStorage = [] ∧
    (run initialState
      (loadData sampleLib .rejected (.resolved (some "[1]")))).favorites = [] ∧
    (1 : Int) ∉ (run initialState
      (loadData sampleLib .rejected (.resolved (some "[1]")))).favorites := by
  refine ⟨by decide, ?_, ?_, ?_⟩
  · simp [loadData, Step.isStorage]
  · rw [run_loadData_rejected]
    rfl
  · rw [run_loadData_rejected]
    decide

/-- C9, amended: `loadData` reads the favourites only after the record fetch
has succeeded.  When the record fetch succeeds, the favourites read succeeds
and returns a non-empty blob that `JSON.parse` accepts, `favorites` after
`loadData` is the list parsed from that blob (and `users` is the fetched list);
when no blob exists `favorites` stays as before, for every outcome of the
record fetch; and when the record fetch fails the persistence layer is not
called and `favorites` stays as before. -/
theorem loadData_favorites (lib : JsLib) (s : AppState) (data : List User)
    (fetched : Outcome (List User)) (stored : Outcome (Option String))
    (blob : String) (parsed : List Int)
    (hblob : blob ≠ "") (hparse : lib.jsonParse blob = some parsed) :
    (run s (loadData lib (.resolved data) (.resolved (some blob)))).favorites = parsed ∧
    (run s (loadData lib (.resolved data) (.resolved (some blob)))).users = data ∧
    (run s (loadData lib fetched (.resolved none))).favorites = s.favorites ∧
    (run s (loadData lib .rejected stored)).favorites = s.favorites ∧
    (loadData lib .rejected stored).filter Step.isStorage = [] := by
  refine ⟨?_, ?_, ?_, ?_, ?_⟩
  · rw [run_loadData_resolved]
    simp [hblob, hparse]
  · rw [run_loadData_resolved]
  · cases fetched with
    | resolved d => rw [run_loadData_resolved]
    | rejected => rw [run_loadData_rejected]
  · rw [run_loadData_rejected]
  · simp [loadData, Step.isStorage]

/-- Witness of the amended C9: the fetch returns the record of Ann and the
store holds the blob `[1]`. -/
theorem loadData_favorites_witness :
    (run initialState
      (loadData sampleLib (.resolved [⟨1, "Ann", "a@x.com"⟩])
        (.resolved (some "[1]")))).favorites = [1] :=
  (loadData_favorites sampleLib initialState [⟨1, "Ann", "a@x.com"⟩] .rejected
    .rejected "[1]" [1] (by decide) (by decide)).1

/-- C10, the code at the failing input: for the name `Ann Marie Smith` the
handle is `ann_marie smith`.  Only the first space is replaced, the handle
sent to the create operation still contains a space, and it is not the name
lower-cased with each of its spaces replaced by an underscore. -/
theorem username_keeps_later_spaces :
    username sampleLib "Ann Marie Smith" = "ann_marie smith" ∧
    ' ' ∈ (username sampleLib "Ann Marie Smith").data ∧
    username sampleLib "Ann Marie Smith" ≠ "ann_marie_smith" ∧
    (addNewUser sampleLib
        { initialState with newUserName := "Ann Marie Smith", newUserEmail := "a@x.com" }
        .rejected).filter Step.isRemote
      = [Step.axiosPost USERS_URL "Ann Marie Smith" "a@x.com" "ann_marie smith"] := by
  refine ⟨by decide, by decide, by decide, ?_⟩
  rw [addNewUser_valid _ _ _ (by decide) (by decide)]
  decide

end CryptoWatch
